import Mathlib

/-!
Shallow embedding of the daily invoice-generation job
(`src/index.js`, `src/sellsy.js`, `src/utils.js`).

Airtable field values are dynamic, so they are modelled by `JVal`
(JS truthiness, `||` defaulting, `parseInt` / `parseFloat` coercions).
External effects (Airtable point reads and writes, Sellsy HTTP calls)
are modelled by explicit stores, oracles for remote outcomes, and
event / API-call traces.
-/

set_option maxHeartbeats 1000000

deriving instance DecidableEq for Except

namespace FactureToSellsy

/-- Dynamic value of a record field. `null` stands for an absent field
(JS `undefined`). -/
inductive JVal where
  | null
  | bool (b : Bool)
  | num (n : Int)
  | str (s : String)
deriving DecidableEq

/-- JS truthiness of a field value. -/
def JVal.truthy : JVal → Bool
  | .null => false
  | .bool b => b
  | .num n => decide (n ≠ 0)
  | .str s => decide (s ≠ "")

/-- JS `x || d`. -/
def jsOr (x d : JVal) : JVal := if x.truthy then x else d

/-- Value of a numeric field read as `x || 0` in the source. Airtable
numeric fields hold numbers when present, so the other constructors map
to the default 0. -/
def numOr0 : JVal → Int
  | .num n => n
  | _ => 0

/-- Accumulate decimal digits into a number. -/
def digitsToNat (ds : List Char) : Nat :=
  ds.foldl (fun a c => a * 10 + (c.toNat - 48)) 0

/-- JS `parseInt` on a string: optional sign, then the leading run of
decimal digits; `none` models NaN. -/
def parseIntStr (s : String) : Option Int :=
  let cs := s.data.dropWhile (fun c => c = ' ')
  match cs with
  | '-' :: r =>
      let ds := r.takeWhile Char.isDigit
      if ds.isEmpty then none else some (-(digitsToNat ds : Int))
  | '+' :: r =>
      let ds := r.takeWhile Char.isDigit
      if ds.isEmpty then none else some ((digitsToNat ds : Int))
  | r =>
      let ds := r.takeWhile Char.isDigit
      if ds.isEmpty then none else some ((digitsToNat ds : Int))

/-- JS `parseInt` applied to a field value; `none` models NaN. -/
def parseIntJS : JVal → Option Int
  | .num n => some n
  | .str s => parseIntStr s
  | _ => none

/-- JS `parseFloat` applied to a field value (all prices in scope are
integral); `none` models NaN. -/
def parseFloatJS : JVal → Option Int
  | .num n => some n
  | .str s => parseIntStr s
  | _ => none

/-- Calendar date, used to model `new Date()` at run time. -/
structure SimpleDate where
  year : Int
  month : Int
  day : Int
deriving DecidableEq

/-- Strict lexicographic order on dates: `dateLt a b` means `a` is
strictly before `b`. -/
def dateLt (a b : SimpleDate) : Bool :=
  a.year < b.year ∨
  (a.year = b.year ∧ a.month < b.month) ∨
  (a.year = b.year ∧ a.month = b.month ∧ a.day < b.day)

/-- Gregorian leap year test. -/
def isLeapYear (y : Int) : Bool :=
  (y % 4 = 0 ∧ y % 100 ≠ 0) ∨ y % 400 = 0

/-- Number of days in a month of the Gregorian calendar. -/
def daysInMonth (y m : Int) : Int :=
  if m = 2 then (if isLeapYear y then 29 else 28)
  else if m = 4 ∨ m = 6 ∨ m = 9 ∨ m = 11 then 30
  else 31

/-- Fields of an `Abonnements` record, as read by the job. The start
date field exists in the table schema (`Date de début`) but is never
read by the code. -/
structure SubscriptionFields where
  jourFacturation : JVal
  idSellsyAbonne : JVal
  servicesLies : List String
  dateDebut : Option SimpleDate
deriving DecidableEq

/-- A fetched subscription record. -/
structure SubscriptionRecord where
  id : String
  fields : SubscriptionFields
deriving DecidableEq

/-- `checkIfInvoiceNeeded` from `src/index.js`: read the configured
billing day; if falsy, not due; otherwise due iff
`currentDay === parseInt(jourFacturation)` (a NaN comparison is false). -/
def checkIfInvoiceNeeded (jourFacturation : JVal) (currentDay : Int) : Bool :=
  if ¬ jourFacturation.truthy then false
  else
    match parseIntJS jourFacturation with
    | none => false
    | some n => decide (currentDay = n)

/-- The same due check expressed against a full calendar date: the code
uses only `today.getDate()`, i.e. the day-of-month component. -/
def checkIfInvoiceNeededOn (f : SubscriptionFields) (today : SimpleDate) : Bool :=
  checkIfInvoiceNeeded f.jourFacturation today.day

/-- Fields of a `service_sellsy` record, as read by the job. -/
structure ServiceFields where
  actif : JVal
  categorie : JVal
  idSellsyAbonne : JVal
  idSellsy : JVal
  nomDuService : JVal
  prixHT : JVal
  tauxTVA : JVal
  occurrencesRestantes : JVal
  occurrencesTotales : JVal
  moisFactures : JVal
deriving DecidableEq

/-- A fetched service record. -/
structure ServiceRecord where
  id : String
  fields : ServiceFields
deriving DecidableEq

/-- Per-service validation of `getServicesForSubscription`: active flag
is the string Actif or the boolean true; category is the string
Abonnement; the service client id, defaulted to the empty string by a
JS or, is truthy and strictly equal to the subscription client id. -/
def serviceAccepted (idSellsyClient : JVal) (f : ServiceFields) : Bool :=
  (f.actif == JVal.str "Actif" || f.actif == JVal.bool true) &&
  (f.categorie == JVal.str "Abonnement") &&
  (let serviceClientId := jsOr f.idSellsyAbonne (JVal.str "")
   serviceClientId.truthy && serviceClientId == idSellsyClient)

/-- `getServicesForSubscription` from `src/index.js`. The Airtable point
lookup is modelled by `table`; a `none` result models a thrown `find`
which is caught, logged and skipped. -/
def getServicesForSubscription (sub : SubscriptionFields)
    (table : String → Option ServiceRecord) : List ServiceRecord :=
  if sub.servicesLies.isEmpty then []
  else if ¬ sub.idSellsyAbonne.truthy then []
  else
    sub.servicesLies.filterMap (fun recordId =>
      match table recordId with
      | none => none
      | some svc =>
          if serviceAccepted sub.idSellsyAbonne svc.fields then some svc else none)

/-- The service table state threaded through occurrence updates. -/
def Store := String → Option ServiceFields

/-- `updateServiceOccurrences` from `src/index.js`: re-read the record,
set `moisFactures` to `(moisFactures || 0) + 1` and
`occurrencesRestantes` to `max(0, (occurrencesTotales || 0) - moisFactures)`.
A failed point read is caught and leaves the store unchanged. -/
def updateServiceOccurrences (serviceId : String) (st : Store) : Store :=
  match st serviceId with
  | none => st
  | some f =>
      let moisFactures := numOr0 f.moisFactures + 1
      let occurrencesTotales := numOr0 f.occurrencesTotales
      let nouvellesOccurrencesRestantes := max 0 (occurrencesTotales - moisFactures)
      fun k =>
        if k = serviceId then
          some { f with moisFactures := JVal.num moisFactures,
                        occurrencesRestantes := JVal.num nouvellesOccurrencesRestantes }
        else st k

/-- The invoice request built by `generateInvoicesForServices` and
passed to `generateInvoice`. -/
structure ServiceInfo where
  clientId : JVal
  serviceId : JVal
  serviceName : JVal
  price : JVal
  taxRate : JVal
deriving DecidableEq

/-- Build the `serviceInfo` object of `generateInvoicesForServices`. -/
def serviceInfoOf (idSellsyClient : JVal) (f : ServiceFields) : ServiceInfo :=
  { clientId := idSellsyClient
    serviceId := f.idSellsy
    serviceName := f.nomDuService
    price := f.prixHT
    taxRate := jsOr f.tauxTVA (JVal.num 20) }

/-- Observable billing events of one run. -/
inductive Event where
  | invoiced (sid : String)
  | updated (sid : String)
  | genFailed (sid : String)
deriving DecidableEq

/-- Body of the per-service loop of `generateInvoicesForServices`:
skip when the stored remaining count (`occurrencesRestantes || 0`) is
`<= 0`, skip when the Sellsy service id is falsy; otherwise call
`generateInvoice` (outcome given by the oracle `gen`); on success log,
then run `updateServiceOccurrences`; a thrown `generateInvoice` is
caught and logged. -/
def processOneService (gen : ServiceInfo → Bool) (idSellsyClient : JVal)
    (svc : ServiceRecord) (st : Store) : Store × List Event :=
  let occurrencesRestantes := numOr0 (jsOr svc.fields.occurrencesRestantes (JVal.num 0))
  if occurrencesRestantes ≤ 0 then (st, [])
  else if ¬ svc.fields.idSellsy.truthy then (st, [])
  else if gen (serviceInfoOf idSellsyClient svc.fields) then
    (updateServiceOccurrences svc.id st, [Event.invoiced svc.id, Event.updated svc.id])
  else (st, [Event.genFailed svc.id])

/-- Sequential per-service loop of `generateInvoicesForServices`. -/
def generateInvoicesGo (gen : ServiceInfo → Bool) (idSellsyClient : JVal) :
    List ServiceRecord → Store → Store × List Event
  | [], st => (st, [])
  | svc :: rest, st =>
      let r := processOneService gen idSellsyClient svc st
      let r' := generateInvoicesGo gen idSellsyClient rest r.1
      (r'.1, r.2 ++ r'.2)

/-- `generateInvoicesForServices` from `src/index.js`. -/
def generateInvoicesForServices (gen : ServiceInfo → Bool)
    (sub : SubscriptionFields) (services : List ServiceRecord) (st : Store) :
    Store × List Event :=
  if ¬ sub.idSellsyAbonne.truthy then (st, [])
  else generateInvoicesGo gen sub.idSellsyAbonne services st

/-- Main loop of `main` in `src/index.js`: for each active subscription,
run the due check; if due, fetch the valid services; if none, skip;
otherwise process them and increment `invoicesGenerated` by one.
Returns the final store, the event trace and the logged counter. -/
def mainLoop (gen : ServiceInfo → Bool) (table : String → Option ServiceRecord)
    (today : SimpleDate) :
    List SubscriptionRecord → Store → Store × List Event × Nat
  | [], st => (st, [], 0)
  | ab :: rest, st =>
      if ¬ checkIfInvoiceNeededOn ab.fields today then
        mainLoop gen table today rest st
      else
        let services := getServicesForSubscription ab.fields table
        if services.isEmpty then mainLoop gen table today rest st
        else
          let r := generateInvoicesForServices gen ab.fields services st
          let r' := mainLoop gen table today rest r.1
          (r'.1, r.2 ++ r'.2.1, r'.2.2 + 1)

/-- Number of successfully created invoices in a trace. -/
def countInvoiced (evs : List Event) : Nat :=
  (evs.filter (fun e => match e with | Event.invoiced _ => true | _ => false)).length

/-- ASCII lower-casing, modelling JS `toLowerCase` on the labels in
scope. -/
def lowerStr (s : String) : String := String.mk (s.data.map Char.toLower)

/-- JS `hay.includes(needle)`: substring containment. -/
def strIncludes (hay needle : String) : Bool :=
  (List.range (hay.data.length + 1)).any
    (fun i => needle.data.isPrefixOf (hay.data.drop i))

/-- An active payment method returned by the Sellsy search endpoint. -/
structure PaymentMethod where
  id : Int
  label : String
deriving DecidableEq

/-- Error string thrown by `findPaymentMethodByName` when the active
payment-method list is empty. -/
def noPaymentMethodMsg : String :=
  "Aucune méthode de paiement appropriée trouvée dans Sellsy"

/-- `findPaymentMethodByName` from `src/sellsy.js`, applied to the
outcome of the payment-method search request (an error models both a
failed request and a malformed response). Priority order of the source:
exact `prélèvement` label when asked for gocardless or prélèvement, then
case-insensitive substring match, then a direct-debit style match
(prélèvement, sepa, direct debit), then the first active method, and
otherwise throw. -/
def findPaymentMethodByName (resp : Except String (List PaymentMethod))
    (nameToFind : String) : Except String Int :=
  match resp with
  | .error e => .error e
  | .ok methods =>
      let lower := lowerStr nameToFind
      let exactHit :=
        if lower = "gocardless" ∨ lower = "prélèvement" then
          methods.find? (fun m => lowerStr m.label = "prélèvement")
        else none
      match exactHit with
      | some m => .ok m.id
      | none =>
          match methods.find? (fun m => strIncludes (lowerStr m.label) lower) with
          | some m => .ok m.id
          | none =>
              match methods.find? (fun m =>
                  strIncludes (lowerStr m.label) "prélèvement" ||
                  strIncludes (lowerStr m.label) "sepa" ||
                  strIncludes (lowerStr m.label) "direct debit") with
              | some m => .ok m.id
              | none =>
                  match methods with
                  | m :: _ => .ok m.id
                  | [] => .error noPaymentMethodMsg

/-- Remote outcomes of the Sellsy API calls made while generating one
invoice. -/
structure SellsyEnv where
  paymentSearch : Except String (List PaymentMethod)
  createInvoice : Except String Int
  configurePayment : Except String Unit
  validate : Except String Unit

/-- The Sellsy API calls an invoice generation can issue, in order. -/
inductive ApiCall where
  | paymentMethodSearch
  | invoiceCreate
  | paymentDetails
  | invoiceValidate
deriving DecidableEq

/-- `configureDirectDebitPayment` from `src/sellsy.js`: look up the
prélèvement payment method, then post the payment details; every error
is caught and turned into a `false` result. -/
def configureDirectDebitPayment (env : SellsyEnv) : Bool × List ApiCall :=
  match findPaymentMethodByName env.paymentSearch "prélèvement" with
  | .error _ => (false, [ApiCall.paymentMethodSearch])
  | .ok _ =>
      match env.configurePayment with
      | .error _ => (false, [ApiCall.paymentMethodSearch, ApiCall.paymentDetails])
      | .ok _ => (true, [ApiCall.paymentMethodSearch, ApiCall.paymentDetails])

/-- Error string thrown by the parameter presence check of
`generateInvoice`. -/
def missingParamsMsg : String := "Paramètres manquants pour la génération de facture"

/-- `generateInvoice` from `src/sellsy.js`, returning the result and
the trace of Sellsy API calls issued. Steps, in source order: truthiness
check of clientId, serviceName and price; payment-method lookup;
numeric parses of price, tax rate (destructuring default 20) and client
id; invoice creation; best-effort direct-debit configuration; invoice
validation. Errors of the configuration step are swallowed; every other
error propagates to the caller. -/
def generateInvoice (env : SellsyEnv) (info : ServiceInfo) :
    Except String Int × List ApiCall :=
  if ¬ (info.clientId.truthy && info.serviceName.truthy && info.price.truthy) then
    (.error missingParamsMsg, [])
  else
    match findPaymentMethodByName env.paymentSearch "prélèvement" with
    | .error e => (.error e, [ApiCall.paymentMethodSearch])
    | .ok _paymentMethodId =>
        match parseFloatJS info.price with
        | none => (.error "Le prix recu est invalide", [ApiCall.paymentMethodSearch])
        | some _numericPrice =>
            let taxRateVal := if info.taxRate = JVal.null then JVal.num 20 else info.taxRate
            match parseFloatJS taxRateVal with
            | none => (.error "Le taux de TVA recu est invalide", [ApiCall.paymentMethodSearch])
            | some _numericTaxRate =>
                match parseIntJS info.clientId with
                | none => (.error "ID client invalide", [ApiCall.paymentMethodSearch])
                | some _numericClientId =>
                    match env.createInvoice with
                    | .error e =>
                        (.error e, [ApiCall.paymentMethodSearch, ApiCall.invoiceCreate])
                    | .ok invoiceId =>
                        let cfg := configureDirectDebitPayment env
                        let pre :=
                          [ApiCall.paymentMethodSearch, ApiCall.invoiceCreate] ++ cfg.2
                        match env.validate with
                        | .error e => (.error e, pre ++ [ApiCall.invoiceValidate])
                        | .ok _ => (.ok invoiceId, pre ++ [ApiCall.invoiceValidate])

/-- Failure information attached to a failed Sellsy HTTP attempt,
mirroring the axios error object (`error.response?.status` and
`error.code`). -/
structure ReqError where
  status : Option Int
  code : Option String
deriving DecidableEq

/-- Outcome of a single HTTP attempt. -/
inductive Outcome where
  | ok
  | fail (e : ReqError)
deriving DecidableEq

/-- Retry ceiling of `sellsyRequest`. -/
def MAX_RETRIES : Nat := 3

/-- Recursion of `sellsyRequest` from `src/sellsy.js`, with the outcome
of the n-th attempt given by `outs` and the fuel `left` equal to
`MAX_RETRIES - 1 - retryCount`, the number of retries still allowed, so
that `left = 0` is exactly the guard `retryCount < MAX_RETRIES - 1`
failing. The source retries on a 401 status, and on any error whose
code is not `ERR_BAD_REQUEST`; otherwise the error is thrown. Returns
the final result together with the number of attempts performed. -/
def sellsyGo (outs : Nat → Outcome) : Nat → Nat → Except ReqError Unit × Nat
  | retryCount, left =>
      match outs retryCount with
      | .ok => (Except.ok (), 1)
      | .fail e =>
          match left with
          | 0 => (Except.error e, 1)
          | left' + 1 =>
              if e.status = some 401 ∨ e.code ≠ some "ERR_BAD_REQUEST" then
                let r := sellsyGo outs (retryCount + 1) left'
                (r.1, r.2 + 1)
              else (Except.error e, 1)

/-- `sellsyRequest` entered with the default `retryCount = 0`, hence
`MAX_RETRIES - 1` retries allowed. -/
def sellsyRequest (outs : Nat → Outcome) : Except ReqError Unit × Nat :=
  sellsyGo outs 0 (MAX_RETRIES - 1)

/-! Concrete fixtures used by the witnesses and counterexamples. -/

/-- A service record passing every validator check: active, category
Abonnement, client C1, Sellsy id 42, price 50, 12 of 12 occurrences
left. -/
def sampleFields : ServiceFields :=
  { actif := JVal.str "Actif", categorie := JVal.str "Abonnement",
    idSellsyAbonne := JVal.str "C1", idSellsy := JVal.num 42,
    nomDuService := JVal.str "Maintenance", prixHT := JVal.num 50,
    tauxTVA := JVal.num 20, occurrencesRestantes := JVal.num 12,
    occurrencesTotales := JVal.num 12, moisFactures := JVal.num 0 }

/-- The sample record under id svc1. -/
def sampleService : ServiceRecord := { id := "svc1", fields := sampleFields }

/-- A one-record service table holding `sampleFields` at svc1. -/
def storeTwelve : Store := fun k => if k = "svc1" then some sampleFields else none

/-- Elapsed months and stored remaining occurrences of a record. -/
def occView (f : ServiceFields) : Int × Int :=
  (numOr0 f.moisFactures, numOr0 f.occurrencesRestantes)

/-- Subscription fixture with billing day 31 (used against April, a
30-day month). -/
def aprilSubFields : SubscriptionFields :=
  { jourFacturation := JVal.num 31, idSellsyAbonne := JVal.str "C1",
    servicesLies := ["svc1"], dateDebut := none }

/-- Start date fixture strictly after 2026-10-11. -/
def futureStart : SimpleDate := ⟨2026, 10, 12⟩

/-- Subscription fixture whose start date is in the future and whose
billing day matches 2026-10-11. -/
def futureStartSub : SubscriptionFields :=
  { jourFacturation := JVal.num 11, idSellsyAbonne := JVal.str "C1",
    servicesLies := ["svc1"], dateDebut := some futureStart }

/-- Service fixture whose stored remaining count (5) disagrees with the
recomputed value max 0 (total 3 - elapsed 3) = 0. -/
def staleService : ServiceRecord :=
  { id := "svc1",
    fields := { sampleFields with
                  occurrencesRestantes := JVal.num 5,
                  occurrencesTotales := JVal.num 3,
                  moisFactures := JVal.num 3 } }

/-- Service fixture with stored remaining count 0. -/
def exhaustedService : ServiceRecord :=
  { id := "svc2",
    fields := { sampleFields with
                  occurrencesRestantes := JVal.num 0,
                  occurrencesTotales := JVal.num 3,
                  moisFactures := JVal.num 3 } }

/-- An oracle under which every `generateInvoice` call throws. -/
def genNever : ServiceInfo → Bool := fun _ => false

/-- Service fixture valid in every respect except that its billing-party
id C2 differs from the subscription client C1. -/
def mismatchService : ServiceRecord :=
  { id := "svc9", fields := { sampleFields with idSellsyAbonne := JVal.str "C2" } }

/-- Subscription fixture owned by client C1 and linked to svc9. -/
def subC1 : SubscriptionFields :=
  { jourFacturation := JVal.num 15, idSellsyAbonne := JVal.str "C1",
    servicesLies := ["svc9"], dateDebut := none }

/-- One-record table resolving svc9 to `mismatchService`. -/
def tableC1 : String → Option ServiceRecord :=
  fun k => if k = "svc9" then some mismatchService else none

/-- Subscription fixture due on day 11 and linked to svc1. -/
def dueSub : SubscriptionRecord :=
  { id := "ab1",
    fields := { jourFacturation := JVal.num 11, idSellsyAbonne := JVal.str "C1",
                servicesLies := ["svc1"], dateDebut := none } }

/-- One-record table resolving svc1 to `sampleService`. -/
def tableOk : String → Option ServiceRecord :=
  fun k => if k = "svc1" then some sampleService else none

/-- Well-formed invoice request fixture. -/
def infoOk : ServiceInfo :=
  { clientId := JVal.num 123, serviceId := JVal.num 42,
    serviceName := JVal.str "Maintenance", price := JVal.num 50,
    taxRate := JVal.num 20 }

/-- Invoice request fixture with a zero price. -/
def infoZeroPrice : ServiceInfo := { infoOk with price := JVal.num 0 }

/-- Sellsy environment where every remote call would succeed but the
active payment-method list is empty. -/
def envNoMethods : SellsyEnv :=
  { paymentSearch := Except.ok [], createInvoice := Except.ok 777,
    configurePayment := Except.ok (), validate := Except.ok () }

/-- Sellsy environment where every remote call succeeds. -/
def envAllOk : SellsyEnv :=
  { paymentSearch := Except.ok [⟨7, "Prélèvement"⟩], createInvoice := Except.ok 777,
    configurePayment := Except.ok (), validate := Except.ok () }

/-- A client-side bad-request failure as axios reports it. -/
def badReqErr : ReqError := ⟨some 400, some "ERR_BAD_REQUEST"⟩

/-! Helper lemmas shared across the claim theorems. -/

/-- When `generateInvoice` throws, the per-service loop body leaves the
store alone and at most logs the failure. -/
theorem processOneService_gen_false (gen : ServiceInfo → Bool) (c : JVal)
    (svc : ServiceRecord) (st : Store)
    (h : gen (serviceInfoOf c svc.fields) = false) :
    processOneService gen c svc st = (st, []) ∨
    processOneService gen c svc st = (st, [Event.genFailed svc.id]) := by
  unfold processOneService
  simp only [h]
  split_ifs <;> simp_all

/-- A successful `Except` value carries a payload. -/
theorem exists_ok_of_isOk {e : Except String Int} (h : e.isOk = true) :
    ∃ i, e = Except.ok i := by
  cases e with
  | ok i => exact ⟨i, rfl⟩
  | error _ => exact absurd h (by simp [Except.isOk, Except.toBool])

/-- A falsy parameter check makes `generateInvoice` throw before any API
call. -/
theorem generateInvoice_not_truthy (env : SellsyEnv) (info : ServiceInfo)
    (h : (info.clientId.truthy && info.serviceName.truthy && info.price.truthy) = false) :
    generateInvoice env info = (Except.error missingParamsMsg, []) := by
  unfold generateInvoice
  simp [h]

/-- The attempt count of the retry loop is bounded by the allowed
retries plus one. -/
theorem sellsyGo_attempts_le (outs : Nat → Outcome) :
    ∀ (left rc : Nat), (sellsyGo outs rc left).2 ≤ left + 1 := by
  intro left
  induction left with
  | zero =>
      intro rc
      unfold sellsyGo
      cases outs rc <;> simp
  | succ l ih =>
      intro rc
      unfold sellsyGo
      cases outs rc with
      | ok => simp
      | fail e =>
          by_cases h : (e.status = some 401 ∨ e.code ≠ some "ERR_BAD_REQUEST")
          · have := ih (rc + 1)
            simp only [h, if_true]
            omega
          · simp [h]

/-! Claim theorems. -/

/-- C1 counterexample: April 2025 has 30 days, so April 30 is the last
day of that month and the configured billing day 31 exceeds it; the
claim demands the due check return true there, yet
`checkIfInvoiceNeeded` compares the day-of-month alone and returns
false. -/
theorem checkIfInvoiceNeeded_no_monthEnd_rollover :
    daysInMonth 2025 4 = 30 ∧
    numOr0 aprilSubFields.jourFacturation > daysInMonth 2025 4 ∧
    checkIfInvoiceNeededOn aprilSubFields ⟨2025, 4, 30⟩ = false := by decide

/-- C1 (amended): the due check returns true exactly when the billing
day field is truthy and parses to today-of-month; there is no month-end
rollover, so billing day 31 is not due on April 30 and is due on a
day 31. -/
theorem checkIfInvoiceNeeded_eq_day_match :
    (∀ (jf : JVal) (d : Int),
        checkIfInvoiceNeeded jf d = (jf.truthy && parseIntJS jf == some d)) ∧
    checkIfInvoiceNeededOn aprilSubFields ⟨2025, 4, 30⟩ = false ∧
    checkIfInvoiceNeededOn aprilSubFields ⟨2025, 5, 31⟩ = true := by
  refine ⟨fun jf d => ?_, by decide, by decide⟩
  unfold checkIfInvoiceNeeded
  by_cases t : jf.truthy
  · rw [if_neg (by simp [t])]
    cases h : parseIntJS jf with
    | none => simp [t, h]
    | some n =>
        rw [t]
        refine Bool.eq_iff_iff.mpr ?_
        simp only [decide_eq_true_eq, Bool.true_and, beq_iff_eq, Option.some.injEq]
        exact eq_comm
  · rw [if_pos (by simp [t])]
    simp [t]

/-- C2: one `updateServiceOccurrences` call rewrites a stored record to
elapsed plus one and remaining recomputed as the clamped difference
max 0 (total - (elapsed + 1)); from total 12 and elapsed 0, one call
yields (1, 11), twelve calls yield (12, 0) and a thirteenth call keeps
remaining at 0. -/
theorem updateServiceOccurrences_step_and_clamp :
    (∀ (st : Store) (sid : String) (f : ServiceFields), st sid = some f →
        (updateServiceOccurrences sid st) sid =
          some { f with
                  moisFactures := JVal.num (numOr0 f.moisFactures + 1),
                  occurrencesRestantes :=
                    JVal.num (max 0 (numOr0 f.occurrencesTotales -
                      (numOr0 f.moisFactures + 1))) }) ∧
    (((updateServiceOccurrences "svc1")^[1] storeTwelve) "svc1").map occView =
      some (1, 11) ∧
    (((updateServiceOccurrences "svc1")^[12] storeTwelve) "svc1").map occView =
      some (12, 0) ∧
    (((updateServiceOccurrences "svc1")^[13] storeTwelve) "svc1").map occView =
      some (13, 0) := by
  refine ⟨fun st sid f h => ?_, by decide, by decide, by decide⟩
  unfold updateServiceOccurrences
  rw [h]
  simp

/-- C2 witness: the single-step property applied to the concrete store
holding total 12, elapsed 0 at svc1. -/
theorem updateServiceOccurrences_step_witness :
    (updateServiceOccurrences "svc1" storeTwelve) "svc1" =
      some { sampleFields with
              moisFactures := JVal.num (numOr0 sampleFields.moisFactures + 1),
              occurrencesRestantes :=
                JVal.num (max 0 (numOr0 sampleFields.occurrencesTotales -
                  (numOr0 sampleFields.moisFactures + 1))) } :=
  updateServiceOccurrences_step_and_clamp.1 storeTwelve "svc1" sampleFields rfl

/-- C3 counterexample: `staleService` has total 3 and elapsed 3, so the
recomputed remaining count is 0, yet its stored remaining field is 5
and the billing step invoices it and decrements it: the decision reads
the stored field, not max 0 (total - elapsed). -/
theorem processOneService_uses_stored_remaining :
    max 0 (numOr0 staleService.fields.occurrencesTotales -
        numOr0 staleService.fields.moisFactures) = 0 ∧
    (processOneService (fun _ => true) (JVal.str "C1") staleService
        (fun _ => none)).2 =
      [Event.invoiced "svc1", Event.updated "svc1"] := by decide

/-- C3 (amended): the billing step rejects a service exactly by the
stored remaining-occurrences field defaulted to 0, and its decision and
events are unchanged under any values of the stored total and elapsed
fields. -/
theorem processOneService_stored_remaining_decision :
    (∀ (gen : ServiceInfo → Bool) (c : JVal) (svc : ServiceRecord) (st : Store),
        numOr0 (jsOr svc.fields.occurrencesRestantes (JVal.num 0)) ≤ 0 →
        processOneService gen c svc st = (st, [])) ∧
    (∀ (gen : ServiceInfo → Bool) (c : JVal) (svc : ServiceRecord) (st : Store)
        (t m : JVal),
        (processOneService gen c
            { svc with fields := { svc.fields with
                occurrencesTotales := t, moisFactures := m } } st).2 =
          (processOneService gen c svc st).2) := by
  constructor
  · intro gen c svc st h
    unfold processOneService
    simp [h]
  · intro gen c svc st t m
    rcases svc with ⟨sid, a, cg, ia, is, nm, px, tx, orr, ot, mf⟩
    rfl

/-- C3 witness: a service with stored remaining 0 (total 3, elapsed 3)
is skipped by the billing step. -/
theorem processOneService_stored_remaining_witness :
    processOneService (fun _ => true) (JVal.str "C1") exhaustedService
        (fun _ => none) =
      ((fun _ => none : Store), []) :=
  processOneService_stored_remaining_decision.1 (fun _ => true) (JVal.str "C1")
    exhaustedService (fun _ => none) (by decide)

/-- C4 counterexample: `futureStartSub` starts 2026-10-12, strictly
after today 2026-10-11, yet because its billing day 11 matches the
day-of-month the due check returns true; the start date is never read. -/
theorem checkIfInvoiceNeeded_ignores_future_start :
    futureStartSub.dateDebut = some futureStart ∧
    dateLt ⟨2026, 10, 11⟩ futureStart = true ∧
    checkIfInvoiceNeededOn futureStartSub ⟨2026, 10, 11⟩ = true := by decide

/-- C4 (amended): the due check is entirely independent of the start
date field, so a subscription with a future start date is still due
whenever its billing day matches today-of-month. -/
theorem checkIfInvoiceNeeded_start_date_irrelevant :
    (∀ (f : SubscriptionFields) (s : Option SimpleDate) (today : SimpleDate),
        checkIfInvoiceNeededOn { f with dateDebut := s } today =
          checkIfInvoiceNeededOn f today) ∧
    dateLt ⟨2026, 10, 11⟩ futureStart = true ∧
    checkIfInvoiceNeededOn futureStartSub ⟨2026, 10, 11⟩ = true := by
  refine ⟨fun f s today => ?_, by decide, by decide⟩
  rcases f with ⟨j, i, l, d⟩
  rfl

/-- C5: when `generateInvoice` throws for a service, the loop body
leaves the store untouched, emits no invoiced or updated event and
counts no invoice; the loop always continues with the remaining
services on the resulting store; and when the guards pass and
`generateInvoice` succeeds, the body performs exactly one occurrence
update, immediately after the invoice. -/
theorem generateInvoicesForServices_failure_isolation :
    (∀ (gen : ServiceInfo → Bool) (c : JVal) (svc : ServiceRecord) (st : Store),
        gen (serviceInfoOf c svc.fields) = false →
        (processOneService gen c svc st).1 = st ∧
        Event.updated svc.id ∉ (processOneService gen c svc st).2 ∧
        Event.invoiced svc.id ∉ (processOneService gen c svc st).2 ∧
        countInvoiced (processOneService gen c svc st).2 = 0) ∧
    (∀ (gen : ServiceInfo → Bool) (c : JVal) (svc : ServiceRecord)
        (rest : List ServiceRecord) (st : Store),
        generateInvoicesGo gen c (svc :: rest) st =
          ((generateInvoicesGo gen c rest (processOneService gen c svc st).1).1,
            (processOneService gen c svc st).2 ++
              (generateInvoicesGo gen c rest (processOneService gen c svc st).1).2)) ∧
    (∀ (gen : ServiceInfo → Bool) (c : JVal) (svc : ServiceRecord) (st : Store),
        0 < numOr0 (jsOr svc.fields.occurrencesRestantes (JVal.num 0)) →
        svc.fields.idSellsy.truthy = true →
        gen (serviceInfoOf c svc.fields) = true →
        processOneService gen c svc st =
          (updateServiceOccurrences svc.id st,
            [Event.invoiced svc.id, Event.updated svc.id])) := by
  refine ⟨?_, ?_, ?_⟩
  · intro gen c svc st h
    rcases processOneService_gen_false gen c svc st h with h' | h' <;>
      rw [h'] <;> simp [countInvoiced]
  · intro gen c svc rest st
    rfl
  · intro gen c svc st h1 h2 h3
    unfold processOneService
    rw [if_neg (by omega), if_neg (by simp [h2]), if_pos h3]

/-- C5 witness: the failure part at a concrete failing oracle and the
success part at a concrete succeeding oracle. -/
theorem generateInvoicesForServices_failure_isolation_witness :
    ((processOneService genNever (JVal.str "C1") sampleService storeTwelve).1 =
        storeTwelve ∧
      Event.updated sampleService.id ∉
        (processOneService genNever (JVal.str "C1") sampleService storeTwelve).2 ∧
      Event.invoiced sampleService.id ∉
        (processOneService genNever (JVal.str "C1") sampleService storeTwelve).2 ∧
      countInvoiced
        (processOneService genNever (JVal.str "C1") sampleService storeTwelve).2 = 0) ∧
    processOneService (fun _ => true) (JVal.str "C1") sampleService storeTwelve =
      (updateServiceOccurrences sampleService.id storeTwelve,
        [Event.invoiced sampleService.id, Event.updated sampleService.id]) :=
  ⟨generateInvoicesForServices_failure_isolation.1 genNever (JVal.str "C1")
      sampleService storeTwelve rfl,
    generateInvoicesForServices_failure_isolation.2.2 (fun _ => true) (JVal.str "C1")
      sampleService storeTwelve (by decide) (by decide) rfl⟩

/-- C6: a service whose billing-party id is falsy or differs from the
subscription billing-party id is never in the validated service list,
whatever its other fields hold. -/
theorem getServicesForSubscription_client_id_guard :
    ∀ (sub : SubscriptionFields) (table : String → Option ServiceRecord)
      (svc : ServiceRecord),
      (svc.fields.idSellsyAbonne.truthy = false ∨
        svc.fields.idSellsyAbonne ≠ sub.idSellsyAbonne) →
      svc ∉ getServicesForSubscription sub table := by
  intro sub table svc h hmem
  unfold getServicesForSubscription at hmem
  split_ifs at hmem
  · exact List.not_mem_nil svc hmem
  case neg => exact List.not_mem_nil svc hmem
  · rw [List.mem_filterMap] at hmem
    obtain ⟨rid, _, heq⟩ := hmem
    rcases htab : table rid with _ | s
    · rw [htab] at heq
      exact Option.noConfusion heq
    · rw [htab] at heq
      dsimp only at heq
      by_cases hacc : serviceAccepted sub.idSellsyAbonne s.fields
      · rw [if_pos hacc] at heq
        have hsv : s = svc := Option.some.inj heq
        subst hsv
        unfold serviceAccepted at hacc
        simp only [jsOr, Bool.and_eq_true, beq_iff_eq] at hacc
        by_cases ht : s.fields.idSellsyAbonne.truthy
        · rw [if_pos ht] at hacc
          rcases h with h | h
          · rw [ht] at h
            exact Bool.noConfusion h
          · exact h hacc.2.2
        · rw [if_neg ht] at hacc
          exact absurd hacc.2.1 (by simp [JVal.truthy])
      · rw [if_neg hacc] at heq
        exact Option.noConfusion heq

/-- C6 witness: the otherwise fully valid svc9, owned by client C2, is
excluded from the services of a subscription owned by client C1. -/
theorem getServicesForSubscription_client_id_guard_witness :
    mismatchService ∉ getServicesForSubscription subC1 tableC1 :=
  getServicesForSubscription_client_id_guard subC1 tableC1 mismatchService
    (Or.inr (by decide))

/-- C7 counterexample: a run over one due subscription whose only valid
service fails invoice generation still logs a count of 1 while zero
invoices were created. -/
theorem mainLoop_count_overcounts :
    (mainLoop genNever tableOk ⟨2026, 3, 11⟩ [dueSub] (fun _ => none)).2.2 = 1 ∧
    countInvoiced
      (mainLoop genNever tableOk ⟨2026, 3, 11⟩ [dueSub] (fun _ => none)).2.1 = 0 := by
  decide

/-- C7 (amended): the logged counter equals the number of due
subscriptions with a nonempty valid-service list, independent of how
many invoices actually succeeded. -/
theorem mainLoop_count_eq_due_subscriptions :
    ∀ (gen : ServiceInfo → Bool) (table : String → Option ServiceRecord)
      (today : SimpleDate) (subs : List SubscriptionRecord) (st : Store),
      (mainLoop gen table today subs st).2.2 =
        (subs.filter (fun ab =>
          checkIfInvoiceNeededOn ab.fields today &&
          !(getServicesForSubscription ab.fields table).isEmpty)).length := by
  intro gen table today subs
  induction subs with
  | nil => intro st; rfl
  | cons ab rest ih =>
      intro st
      unfold mainLoop
      by_cases h1 : checkIfInvoiceNeededOn ab.fields today
      · by_cases h2 : (getServicesForSubscription ab.fields table).isEmpty
        · simp [h1, h2, ih]
        · simp [h1, h2, ih]
      · simp [h1, ih]

/-- C8 counterexample: with an empty active payment-method list (all
other remote calls set to succeed) the resolver throws and
`generateInvoice` fails before the invoice-create call is ever made, so
invoice creation does fail solely because payment-method resolution
failed. -/
theorem generateInvoice_fails_without_payment_methods :
    (generateInvoice envNoMethods infoOk).1 = Except.error noPaymentMethodMsg ∧
    ApiCall.invoiceCreate ∉ (generateInvoice envNoMethods infoOk).2 := by decide

/-- C8 (amended): whenever at least one active payment method exists the
resolver succeeds (label substring match, then direct-debit style match,
then the first active method), and a failure of the post-creation
direct-debit configuration step never changes the outcome of
`generateInvoice`; but with no active payment method the resolver throws
and invoice creation is aborted before the create call. -/
theorem paymentMethod_fallback_and_config_swallowed :
    (∀ (ms : List PaymentMethod) (name : String), ms ≠ [] →
        ∃ i, findPaymentMethodByName (Except.ok ms) name = Except.ok i) ∧
    (∀ (env : SellsyEnv) (info : ServiceInfo) (x : Except String Unit),
        (generateInvoice { env with configurePayment := x } info).1 =
          (generateInvoice env info).1) ∧
    (generateInvoice envNoMethods infoOk).1 = Except.error noPaymentMethodMsg := by
  refine ⟨?_, ?_, by decide⟩
  · intro ms name h
    apply exists_ok_of_isOk
    cases ms with
    | nil => exact absurd rfl h
    | cons m rest =>
        simp only [findPaymentMethodByName]
        split
        · rfl
        · split
          · rfl
          · split
            · rfl
            · rfl
  · intro env info x
    rcases env with ⟨ps, ci, cp, va⟩
    simp only [generateInvoice, configureDirectDebitPayment]
    split
    · rfl
    · rcases hfm : findPaymentMethodByName ps "prélèvement" with e | pid <;>
        simp only [hfm]
      rcases hp : parseFloatJS info.price with _ | np <;> simp only [hp]
      rcases ht : parseFloatJS
          (if info.taxRate = JVal.null then JVal.num 20 else info.taxRate) with _ | nt <;>
        simp only [ht]
      rcases hc : parseIntJS info.clientId with _ | nc <;> simp only [hc]
      rcases hci : ci with e | iid <;> simp only []
      rcases hva : va with e | u <;> simp only []

/-- C8 witness: the fallback applied to a method list holding only a
non-matching label, and the swallowing part applied at a concrete
environment whose configuration call fails. -/
theorem paymentMethod_fallback_witness :
    (∃ i, findPaymentMethodByName
        (Except.ok [⟨7, "Virement"⟩]) "prélèvement" = Except.ok i) ∧
    (generateInvoice { envAllOk with configurePayment := Except.error "boom" }
        infoOk).1 = (generateInvoice envAllOk infoOk).1 :=
  ⟨paymentMethod_fallback_and_config_swallowed.1 [⟨7, "Virement"⟩] "prélèvement"
      (by decide),
    paymentMethod_fallback_and_config_swallowed.2.1 envAllOk infoOk
      (Except.error "boom")⟩

/-- C9: `sellsyRequest` performs at most MAX_RETRIES = 3 attempts for
every outcome sequence; a client-side bad-request failure (status not
401, axios code ERR_BAD_REQUEST) on the first attempt is propagated
immediately after exactly one attempt; and a 401 or transient failure
on the first attempt is re-attempted. -/
theorem sellsyRequest_bounded_retry :
    (∀ outs : Nat → Outcome, (sellsyRequest outs).2 ≤ MAX_RETRIES) ∧
    (∀ (outs : Nat → Outcome) (e : ReqError),
        outs 0 = Outcome.fail e → e.status ≠ some 401 →
        e.code = some "ERR_BAD_REQUEST" →
        sellsyRequest outs = (Except.error e, 1)) ∧
    (∀ (outs : Nat → Outcome) (e : ReqError),
        outs 0 = Outcome.fail e →
        (e.status = some 401 ∨ e.code ≠ some "ERR_BAD_REQUEST") →
        (sellsyRequest outs).2 = (sellsyGo outs 1 (MAX_RETRIES - 2)).2 + 1) := by
  refine ⟨?_, ?_, ?_⟩
  · intro outs
    have := sellsyGo_attempts_le outs (MAX_RETRIES - 1) 0
    simp only [sellsyRequest, MAX_RETRIES] at this ⊢
    omega
  · intro outs e h h1 h2
    unfold sellsyRequest sellsyGo
    rw [h]
    have : ¬ (e.status = some 401 ∨ e.code ≠ some "ERR_BAD_REQUEST") := by
      simp [h1, h2]
    simp [MAX_RETRIES, this]
  · intro outs e h hcond
    show (sellsyGo outs 0 (MAX_RETRIES - 1)).2 = (sellsyGo outs 1 (MAX_RETRIES - 2)).2 + 1
    conv_lhs => rw [sellsyGo]
    rw [h]
    simp [MAX_RETRIES, hcond]

/-- C9 witness: a constant bad-request failure is propagated after one
attempt. -/
theorem sellsyRequest_bounded_retry_witness :
    sellsyRequest (fun _ => Outcome.fail badReqErr) = (Except.error badReqErr, 1) :=
  sellsyRequest_bounded_retry.2.1 (fun _ => Outcome.fail badReqErr) badReqErr rfl
    (by decide) rfl

/-- C10: a falsy price (0), service name (empty string) or client id (0)
makes `generateInvoice` throw the missing-parameters error before any
API call; consequently a zero-priced service in the billing loop is
never invoiced and its occurrence counters are never touched. -/
theorem generateInvoice_truthiness_param_check :
    (∀ (env : SellsyEnv) (info : ServiceInfo),
        (info.price = JVal.num 0 ∨ info.serviceName = JVal.str "" ∨
          info.clientId = JVal.num 0) →
        generateInvoice env info = (Except.error missingParamsMsg, [])) ∧
    (∀ (env : SellsyEnv) (c : JVal) (svc : ServiceRecord) (st : Store),
        svc.fields.prixHT = JVal.num 0 →
        (processOneService (fun i => (generateInvoice env i).1.isOk) c svc st).1 = st ∧
        Event.updated svc.id ∉
          (processOneService (fun i => (generateInvoice env i).1.isOk) c svc st).2 ∧
        Event.invoiced svc.id ∉
          (processOneService (fun i => (generateInvoice env i).1.isOk) c svc st).2) := by
  have key : ∀ (env : SellsyEnv) (info : ServiceInfo),
      (info.price = JVal.num 0 ∨ info.serviceName = JVal.str "" ∨
        info.clientId = JVal.num 0) →
      generateInvoice env info = (Except.error missingParamsMsg, []) := by
    intro env info h
    apply generateInvoice_not_truthy
    rcases h with h | h | h <;> simp [h, JVal.truthy]
  refine ⟨key, ?_⟩
  intro env c svc st h
  have hg : (fun i => (generateInvoice env i).1.isOk)
      (serviceInfoOf c svc.fields) = false := by
    have hp : (serviceInfoOf c svc.fields).price = JVal.num 0 := h
    show (generateInvoice env (serviceInfoOf c svc.fields)).1.isOk = false
    rw [key env (serviceInfoOf c svc.fields) (Or.inl hp)]
    rfl
  rcases processOneService_gen_false (fun i => (generateInvoice env i).1.isOk)
      c svc st hg with h' | h' <;> rw [h'] <;> simp

/-- C10 witness: the parameter check applied to a concrete zero-priced
request in an environment where every remote call would succeed. -/
theorem generateInvoice_truthiness_param_check_witness :
    generateInvoice envAllOk infoZeroPrice = (Except.error missingParamsMsg, []) :=
  generateInvoice_truthiness_param_check.1 envAllOk infoZeroPrice (Or.inl rfl)

end FactureToSellsy
